import Mathlib

/-!
Shallow embedding of `src/check-package-freshness.js`: a pre-commit
package-freshness checker.  Machine state (the checker's `warnings` and
`errors` arrays) is passed explicitly; the `execSync` queries are modelled
by outcome values; thrown JS exceptions are modelled with `Except`.
-/

namespace PkgFreshness

/-- Result of `parseVersion`: the three leading numeric components. -/
structure ParsedVersion where
  major : Nat
  minor : Nat
  patch : Nat
deriving DecidableEq

/-- The value of `getVersionDifference`, one of the strings
`major | minor | patch | none | unknown`. -/
inductive VersionDelta where
  | major
  | minor
  | patch
  | none
  | unknown
deriving DecidableEq

/-- One value of the `npm outdated --json` mapping: the fields the checker
reads (`info.current`, `info.latest`). -/
structure OutdatedInfo where
  current : String
  latest : String
deriving DecidableEq

/-- One value of the `audit.vulnerabilities` mapping: the checker only reads
`vuln.severity`; `none` models an absent or non-string severity field. -/
structure VulnInfo where
  severity : Option String
deriving DecidableEq

/-- The mutable instance state of `PackageFreshnessChecker`:
`this.warnings` and `this.errors`. -/
structure State where
  warnings : List String
  errors : List String
deriving DecidableEq

/-- The constructor's state: both arrays start empty. -/
def initState : State := { warnings := [], errors := [] }

/-- The configuration fields of `CONFIG` that carry decision logic:
`ALLOW_NETWORK_FAILURE` and `VERBOSE`. -/
structure Config where
  allowNetworkFailure : Bool
  verbose : Bool
deriving DecidableEq

/-- The shipped default: `ALLOW_NETWORK_FAILURE: true`; `VERBOSE` depends on
the `CI` environment variable, here a parameter. -/
def defaultConfig (verbose : Bool) : Config :=
  { allowNetworkFailure := true, verbose := verbose }

/-- Outcome of the `npm outdated --json` subprocess call:
parsed JSON mapping, empty output (`!result.trim()`), or a thrown
failure (timeout, unreachable registry, unparseable JSON). -/
inductive OutdatedOutcome where
  | ok (report : List (String × OutdatedInfo))
  | emptyOutput
  | failure (msg : String)
deriving DecidableEq

/-- Outcome of the `npm audit --json` call: parsed JSON (whose
`vulnerabilities` field may be absent, modelled by `Option`), or a thrown
failure (timeout or unparseable JSON). -/
inductive AuditOutcome where
  | ok (vulnerabilities : Option (List (String × VulnInfo)))
  | failure (msg : String)
deriving DecidableEq

/-- The log-message types accepted by `log(message, type)`. -/
inductive LogType where
  | info
  | warn
  | error
deriving DecidableEq

/-- Models `log(message, type)`: prints the icon, a space and the message when
`CONFIG.VERBOSE || type === 'error'`, else nothing. -/
def logMsg (cfg : Config) (message : String) (t : LogType) : List String :=
  if cfg.verbose || t == LogType.error then
    [(match t with
      | LogType.error => "❌"
      | LogType.warn => "⚠️"
      | LogType.info => "ℹ️") ++ " " ++ message]
  else []

/-- Longest digit run at the head of the list, with the remaining
characters: the semantics of a leading greedy `\d+` match. -/
def takeDigits : List Char → List Char × List Char
  | [] => ([], [])
  | c :: cs =>
    if c.isDigit then
      let p := takeDigits cs
      (c :: p.1, p.2)
    else ([], c :: cs)

/-- Value of `parseInt` on a string of decimal digits. -/
def digitsToNat (ds : List Char) : Nat :=
  ds.foldl (fun n c => n * 10 + (c.toNat - 48)) 0

/-- Models `parseVersion(version)`: matches the regex `^(\d+)\.(\d+)\.(\d+)` and
returns the three captured integers, or `null` when there is no match. -/
def parseVersion (version : String) : Option ParsedVersion :=
  let p1 := takeDigits version.data
  if p1.1 = [] then Option.none else
  match p1.2 with
  | [] => Option.none
  | c2 :: r2 =>
    if c2 = '.' then
      let p2 := takeDigits r2
      if p2.1 = [] then Option.none else
      (match p2.2 with
       | [] => Option.none
       | c3 :: r4 =>
         if c3 = '.' then
           let p3 := takeDigits r4
           if p3.1 = [] then Option.none else
           Option.some ⟨digitsToNat p1.1, digitsToNat p2.1, digitsToNat p3.1⟩
         else Option.none)
    else Option.none

/-- Models `getVersionDifference(current, latest)`. -/
def getVersionDifference (current latest : String) : VersionDelta :=
  match parseVersion current, parseVersion latest with
  | Option.some curr, Option.some lat =>
    if lat.major > curr.major then VersionDelta.major
    else if lat.minor > curr.minor then VersionDelta.minor
    else if lat.patch > curr.patch then VersionDelta.patch
    else VersionDelta.none
  | _, _ => VersionDelta.unknown

/-- The string interpolation of a `VersionDelta` into a template literal. -/
def deltaText : VersionDelta → String
  | VersionDelta.major => "major"
  | VersionDelta.minor => "minor"
  | VersionDelta.patch => "patch"
  | VersionDelta.none => "none"
  | VersionDelta.unknown => "unknown"

/-- The per-entry message
``  ${packageName}: ${info.current} → ${info.latest} (${versionDiff})``. -/
def entryMessage (packageName : String) (info : OutdatedInfo) : String :=
  "  " ++ packageName ++ ": " ++ info.current ++ " → " ++ info.latest ++
    " (" ++ deltaText (getVersionDifference info.current info.latest) ++ ")"

/-- One iteration of the `for (const [packageName, info] of
Object.entries(outdated))` loop body: the `switch` on the version delta. -/
def analyzeEntry (s : State) (packageName : String) (info : OutdatedInfo) : State :=
  match getVersionDifference info.current info.latest with
  | VersionDelta.major =>
    { s with warnings := s.warnings ++
        ["📦 Major version available: " ++ entryMessage packageName info] }
  | VersionDelta.minor =>
    { s with warnings := s.warnings ++
        ["📦 Minor version available: " ++ entryMessage packageName info] }
  | VersionDelta.patch =>
    { s with errors := s.errors ++
        ["🔧 Patch version available: " ++ entryMessage packageName info ++
          " - Consider updating soon"] }
  | _ => s

/-- Models `analyzeOutdatedPackages(outdated)`: the state effect (pushes onto
`this.warnings` / `this.errors` in report iteration order). -/
def analyzeOutdatedPackages (s : State) (outdated : List (String × OutdatedInfo)) : State :=
  outdated.foldl (fun s p => analyzeEntry s p.1 p.2) s

/-- The console output of `analyzeOutdatedPackages` (all via `this.log`). -/
def analyzeOutput (cfg : Config) (outdated : List (String × OutdatedInfo)) : List String :=
  if outdated.length = 0 then []
  else
    logMsg cfg ("Found " ++ toString outdated.length ++ " outdated packages:") LogType.info ++
      outdated.foldl (fun acc p => acc ++ logMsg cfg (entryMessage p.1 p.2) LogType.info) []

/-- The filter `['high', 'critical'].includes(vuln.severity)`. -/
def isHighSeverity (v : VulnInfo) : Bool :=
  v.severity == Option.some "high" || v.severity == Option.some "critical"

/-- The error message pushed for high/critical vulnerabilities. -/
def securityErrorMsg (count : Nat) : String :=
  "🔒 " ++ toString count ++
    " high/critical security vulnerabilities found! Run \x27npm audit fix\x27 before committing."

/-- The success path of `checkSecurityVulnerabilities`: the body guarded by
`audit.vulnerabilities && Object.keys(audit.vulnerabilities).length > 0`. -/
def checkSecurityVulnerabilities (s : State)
    (vulnerabilities : Option (List (String × VulnInfo))) : State :=
  match vulnerabilities with
  | Option.some vulns =>
    if vulns.length > 0 then
      let highSeverity := vulns.filter (fun p => isHighSeverity p.2)
      if highSeverity.length > 0 then
        { s with errors := s.errors ++ [securityErrorMsg highSeverity.length] }
      else s
    else s
  | Option.none => s

/-- Models `checkSecurityVulnerabilities` including its `try`/`catch`: a thrown
failure is swallowed; when `ALLOW_NETWORK_FAILURE` is false a warning is
pushed. -/
def checkSecurityVulnerabilitiesRun (cfg : Config) (s : State) :
    AuditOutcome → State
  | AuditOutcome.ok vulnerabilities => checkSecurityVulnerabilities s vulnerabilities
  | AuditOutcome.failure _ =>
    if cfg.allowNetworkFailure then s
    else { s with warnings := s.warnings ++ ["Could not check security vulnerabilities"] }

/-- The data result of `getOutdatedPackages`: empty output parses to `{}`;
a thrown failure returns `{}` under `ALLOW_NETWORK_FAILURE`, else rethrows
`Failed to check package versions: ...`. -/
def getOutdatedPackages (cfg : Config) :
    OutdatedOutcome → Except String (List (String × OutdatedInfo))
  | OutdatedOutcome.ok report => Except.ok report
  | OutdatedOutcome.emptyOutput => Except.ok []
  | OutdatedOutcome.failure msg =>
    if cfg.allowNetworkFailure then Except.ok []
    else Except.error ("Failed to check package versions: " ++ msg)

/-- The console output of `getOutdatedPackages` (all via `this.log`). -/
def getOutdatedPackagesLog (cfg : Config) : OutdatedOutcome → List String
  | OutdatedOutcome.ok _ => logMsg cfg "Checking for outdated packages..." LogType.info
  | OutdatedOutcome.emptyOutput =>
    logMsg cfg "Checking for outdated packages..." LogType.info ++
      logMsg cfg "All packages are up to date! ✅" LogType.info
  | OutdatedOutcome.failure _ =>
    if cfg.allowNetworkFailure then
      logMsg cfg "Checking for outdated packages..." LogType.info ++
        logMsg cfg "Network timeout or registry unavailable - allowing commit" LogType.warn
    else logMsg cfg "Checking for outdated packages..." LogType.info

/-- The inputs of one `run()`: whether `package.json` exists, and the
outcomes of the two `npm` subprocess queries. -/
structure RunInput where
  packageJsonExists : Bool
  outdated : OutdatedOutcome
  audit : AuditOutcome
deriving DecidableEq

/-- The observable result of `run()`: the returned exit code, the sequence
of printed console lines, and the final checker state. -/
structure RunResult where
  exitCode : Nat
  output : List String
  state : State
deriving DecidableEq

/-- The `Verdict`: exit code plus the warning and error finding lists. -/
structure Verdict where
  exitCode : Nat
  warnings : List String
  errors : List String
deriving DecidableEq

/-- The exit code computed by `run`'s top-level `catch` clause:
`CONFIG.ALLOW_NETWORK_FAILURE ? 0 : 1`. -/
def runCatchExit (cfg : Config) : Nat :=
  if cfg.allowNetworkFailure then 0 else 1

/-- The fixed lines of the FAILED block after the enumerated errors. -/
def failedBlockTail : List String :=
  ["\nPlease address these issues before committing.",
   "Hint: Run \"npm update\" or \"npm audit fix\" to resolve some issues."]

/-- Models `run()` with the checker state passed explicitly (the constructor
initialises it to `initState`).  `Promise.all` evaluates
`getOutdatedPackages()` to completion first (its body is synchronous),
then `checkSecurityVulnerabilities()`, so the two are sequenced; the
security check's state effect happens even when the outdated query
rethrows, after which the rejection reaches `run`'s `catch`. -/
def runFrom (cfg : Config) (s0 : State) (inp : RunInput) : RunResult :=
  if inp.packageJsonExists = false then
    { exitCode := 0,
      output := logMsg cfg "No package.json found, skipping package freshness check" LogType.warn,
      state := s0 }
  else
    let o1 := getOutdatedPackagesLog cfg inp.outdated
    let o2 := logMsg cfg "Checking for security vulnerabilities..." LogType.info
    let s1 := checkSecurityVulnerabilitiesRun cfg s0 inp.audit
    match getOutdatedPackages cfg inp.outdated with
    | Except.error msg =>
      { exitCode := runCatchExit cfg,
        output := o1 ++ o2 ++ ["❌ Package freshness check failed: " ++ msg],
        state := s1 }
    | Except.ok outdated =>
      let s2 := analyzeOutdatedPackages s1 outdated
      let o3 := analyzeOutput cfg outdated
      if s2.errors.length > 0 then
        { exitCode := 1,
          output := o1 ++ o2 ++ o3 ++
            ("\n🚫 Pre-commit check FAILED:" :: s2.errors) ++ failedBlockTail,
          state := s2 }
      else
        let warnBlock :=
          if s2.warnings.length > 0 then
            ("\n⚠️  Package freshness warnings:" :: s2.warnings) ++
              ["\nConsider updating these packages when convenient."]
          else []
        let okLine :=
          if s2.warnings.length = 0 && s2.errors.length = 0 then
            logMsg cfg "Package freshness check passed! ✅" LogType.info
          else []
        { exitCode := 0, output := o1 ++ o2 ++ o3 ++ warnBlock ++ okLine, state := s2 }

/-- Models `run()` as invoked by the entry point: a fresh checker per invocation. -/
def run (cfg : Config) (inp : RunInput) : RunResult :=
  runFrom cfg initState inp

/-- The `Verdict` view of a run result. -/
def verdictOf (r : RunResult) : Verdict :=
  { exitCode := r.exitCode, warnings := r.state.warnings, errors := r.state.errors }

/-! ### Derived views of the analyzer, for stating and proving properties -/

/-- The version delta of one outdated-report entry. -/
def deltaOf (p : String × OutdatedInfo) : VersionDelta :=
  getVersionDifference p.2.current p.2.latest

/-- Deltas that the policy maps to a warning finding. -/
def isWarnDelta (d : VersionDelta) : Bool :=
  d == VersionDelta.major || d == VersionDelta.minor

/-- The warning message an entry produces (major and minor wording). -/
def warnMsgOf (p : String × OutdatedInfo) : String :=
  if deltaOf p == VersionDelta.major then
    "📦 Major version available: " ++ entryMessage p.1 p.2
  else
    "📦 Minor version available: " ++ entryMessage p.1 p.2

/-- The blocking message a patch-delta entry produces. -/
def errMsgOf (p : String × OutdatedInfo) : String :=
  "🔧 Patch version available: " ++ entryMessage p.1 p.2 ++ " - Consider updating soon"

/-- The warning findings contributed by one entry. -/
def entryWarningMsgs (p : String × OutdatedInfo) : List String :=
  if isWarnDelta (deltaOf p) then [warnMsgOf p] else []

/-- The blocking findings contributed by one entry. -/
def entryErrorMsgs (p : String × OutdatedInfo) : List String :=
  if deltaOf p == VersionDelta.patch then [errMsgOf p] else []

/-- All warning findings of a report, in report order. -/
def allWarningMsgs : List (String × OutdatedInfo) → List String
  | [] => []
  | p :: ps => entryWarningMsgs p ++ allWarningMsgs ps

/-- All blocking findings of a report, in report order. -/
def allErrorMsgs : List (String × OutdatedInfo) → List String
  | [] => []
  | p :: ps => entryErrorMsgs p ++ allErrorMsgs ps

lemma analyzeEntry_warnings (s : State) (p : String × OutdatedInfo) :
    (analyzeEntry s p.1 p.2).warnings = s.warnings ++ entryWarningMsgs p := by
  cases hd : getVersionDifference p.2.current p.2.latest <;>
    simp [analyzeEntry, entryWarningMsgs, warnMsgOf, isWarnDelta, deltaOf, hd]

lemma analyzeEntry_errors (s : State) (p : String × OutdatedInfo) :
    (analyzeEntry s p.1 p.2).errors = s.errors ++ entryErrorMsgs p := by
  cases hd : getVersionDifference p.2.current p.2.latest <;>
    simp [analyzeEntry, entryErrorMsgs, errMsgOf, deltaOf, hd]

lemma analyze_cons (s : State) (p : String × OutdatedInfo) (ps : List (String × OutdatedInfo)) :
    analyzeOutdatedPackages s (p :: ps) =
      analyzeOutdatedPackages (analyzeEntry s p.1 p.2) ps := rfl

lemma analyze_warnings (r : List (String × OutdatedInfo)) :
    ∀ s : State, (analyzeOutdatedPackages s r).warnings = s.warnings ++ allWarningMsgs r := by
  induction r with
  | nil => intro s; simp [analyzeOutdatedPackages, allWarningMsgs]
  | cons p ps ih =>
    intro s
    rw [analyze_cons, ih, analyzeEntry_warnings, allWarningMsgs, List.append_assoc]

lemma analyze_errors (r : List (String × OutdatedInfo)) :
    ∀ s : State, (analyzeOutdatedPackages s r).errors = s.errors ++ allErrorMsgs r := by
  induction r with
  | nil => intro s; simp [analyzeOutdatedPackages, allErrorMsgs]
  | cons p ps ih =>
    intro s
    rw [analyze_cons, ih, analyzeEntry_errors, allErrorMsgs, List.append_assoc]

lemma allWarningMsgs_eq (r : List (String × OutdatedInfo)) :
    allWarningMsgs r = (r.filter (fun p => isWarnDelta (deltaOf p))).map warnMsgOf := by
  induction r with
  | nil => rfl
  | cons p ps ih =>
    rw [allWarningMsgs, ih, entryWarningMsgs]
    by_cases h : isWarnDelta (deltaOf p) = true <;> simp [List.filter, h]

lemma allErrorMsgs_eq (r : List (String × OutdatedInfo)) :
    allErrorMsgs r = (r.filter (fun p => deltaOf p == VersionDelta.patch)).map errMsgOf := by
  induction r with
  | nil => rfl
  | cons p ps ih =>
    rw [allErrorMsgs, ih, entryErrorMsgs]
    by_cases h : (deltaOf p == VersionDelta.patch) = true <;> simp [List.filter, h]

/-! ### Structure of the security check and of `run` -/

lemma checkSec_warnings (s : State) (v : Option (List (String × VulnInfo))) :
    (checkSecurityVulnerabilities s v).warnings = s.warnings := by
  unfold checkSecurityVulnerabilities
  cases v with
  | none => rfl
  | some vulns => dsimp only; split <;> [skip; rfl]; split <;> rfl

/-- The blocking finding the security check adds: one summary message when
any high/critical entry exists, nothing otherwise. -/
def secErrorMsgs (v : Option (List (String × VulnInfo))) : List String :=
  match v with
  | Option.some vulns =>
    if 0 < (vulns.filter (fun p => isHighSeverity p.2)).length then
      [securityErrorMsg (vulns.filter (fun p => isHighSeverity p.2)).length]
    else []
  | Option.none => []

lemma checkSec_errors (s : State) (v : Option (List (String × VulnInfo))) :
    (checkSecurityVulnerabilities s v).errors = s.errors ++ secErrorMsgs v := by
  unfold checkSecurityVulnerabilities secErrorMsgs
  cases v with
  | none => simp
  | some vulns =>
    dsimp only
    by_cases h0 : vulns.length > 0
    · simp only [if_pos h0]
      by_cases h1 : 0 < (vulns.filter (fun p => isHighSeverity p.2)).length
      · simp [h1]
      · simp [h1]
    · have hnil : vulns = [] := by
        cases vulns with
        | nil => rfl
        | cons a l => simp at h0
      subst hnil
      simp

/-- The warning the degraded security check adds under strict policy. -/
def secFailWarnings (cfg : Config) : AuditOutcome → List String
  | AuditOutcome.ok _ => []
  | AuditOutcome.failure _ =>
    if cfg.allowNetworkFailure then [] else ["Could not check security vulnerabilities"]

/-- The blocking findings of the security check including its catch. -/
def secRunErrorMsgs : AuditOutcome → List String
  | AuditOutcome.ok v => secErrorMsgs v
  | AuditOutcome.failure _ => []

lemma checkSecRun_warnings (cfg : Config) (s : State) (a : AuditOutcome) :
    (checkSecurityVulnerabilitiesRun cfg s a).warnings = s.warnings ++ secFailWarnings cfg a := by
  cases a with
  | ok v => simp [checkSecurityVulnerabilitiesRun, secFailWarnings, checkSec_warnings]
  | failure m =>
    unfold checkSecurityVulnerabilitiesRun secFailWarnings
    by_cases h : cfg.allowNetworkFailure <;> simp [h]

lemma checkSecRun_errors (cfg : Config) (s : State) (a : AuditOutcome) :
    (checkSecurityVulnerabilitiesRun cfg s a).errors = s.errors ++ secRunErrorMsgs a := by
  cases a with
  | ok v => simp [checkSecurityVulnerabilitiesRun, secRunErrorMsgs, checkSec_errors]
  | failure m =>
    unfold checkSecurityVulnerabilitiesRun secRunErrorMsgs
    by_cases h : cfg.allowNetworkFailure <;> simp [h]

/-- The checker state reached by the report path of `run` from state `s0`. -/
def reportState (cfg : Config) (s0 : State) (a : AuditOutcome)
    (r : List (String × OutdatedInfo)) : State :=
  analyzeOutdatedPackages (checkSecurityVulnerabilitiesRun cfg s0 a) r

lemma reportState_warnings (cfg : Config) (s0 : State) (a : AuditOutcome)
    (r : List (String × OutdatedInfo)) :
    (reportState cfg s0 a r).warnings = s0.warnings ++ secFailWarnings cfg a ++ allWarningMsgs r := by
  rw [reportState, analyze_warnings, checkSecRun_warnings]

lemma reportState_errors (cfg : Config) (s0 : State) (a : AuditOutcome)
    (r : List (String × OutdatedInfo)) :
    (reportState cfg s0 a r).errors = s0.errors ++ secRunErrorMsgs a ++ allErrorMsgs r := by
  rw [reportState, analyze_errors, checkSecRun_errors]

lemma run_noPackage (cfg : Config) (od : OutdatedOutcome) (a : AuditOutcome) :
    run cfg ⟨false, od, a⟩ =
      { exitCode := 0,
        output := logMsg cfg "No package.json found, skipping package freshness check" LogType.warn,
        state := initState } := rfl

lemma run_fatal (cfg : Config) (inp : RunInput) (msg : String)
    (hp : inp.packageJsonExists = true)
    (h : getOutdatedPackages cfg inp.outdated = Except.error msg) :
    run cfg inp =
      { exitCode := runCatchExit cfg,
        output := getOutdatedPackagesLog cfg inp.outdated ++
          logMsg cfg "Checking for security vulnerabilities..." LogType.info ++
          ["❌ Package freshness check failed: " ++ msg],
        state := checkSecurityVulnerabilitiesRun cfg initState inp.audit } := by
  unfold run runFrom
  rw [hp, h]
  simp

lemma run_report (cfg : Config) (inp : RunInput) (r : List (String × OutdatedInfo))
    (hp : inp.packageJsonExists = true)
    (h : getOutdatedPackages cfg inp.outdated = Except.ok r) :
    run cfg inp =
      { exitCode := if 0 < (reportState cfg initState inp.audit r).errors.length then 1 else 0,
        output := getOutdatedPackagesLog cfg inp.outdated ++
          logMsg cfg "Checking for security vulnerabilities..." LogType.info ++
          analyzeOutput cfg r ++
          (if 0 < (reportState cfg initState inp.audit r).errors.length then
            ("\n🚫 Pre-commit check FAILED:" :: (reportState cfg initState inp.audit r).errors) ++
              failedBlockTail
           else
            (if 0 < (reportState cfg initState inp.audit r).warnings.length then
              ("\n⚠️  Package freshness warnings:" :: (reportState cfg initState inp.audit r).warnings) ++
                ["\nConsider updating these packages when convenient."]
             else []) ++
            (if (reportState cfg initState inp.audit r).warnings.length = 0 ∧
                (reportState cfg initState inp.audit r).errors.length = 0 then
              logMsg cfg "Package freshness check passed! ✅" LogType.info
             else [])),
        state := reportState cfg initState inp.audit r } := by
  unfold run runFrom
  rw [hp, h]
  simp only [Bool.false_eq_true, if_false, reportState]
  by_cases he : 0 < (analyzeOutdatedPackages (checkSecurityVulnerabilitiesRun cfg initState inp.audit) r).errors.length
  · simp [he, List.append_assoc]
  · by_cases hw : 0 < (analyzeOutdatedPackages (checkSecurityVulnerabilitiesRun cfg initState inp.audit) r).warnings.length
    · simp [he, hw, Nat.pos_iff_ne_zero, List.append_assoc]
    · simp [he, hw, Nat.eq_zero_of_not_pos, List.append_assoc]

lemma allErrorMsgs_ne_nil (r : List (String × OutdatedInfo)) (p : String × OutdatedInfo)
    (hp : p ∈ r) (hd : deltaOf p = VersionDelta.patch) : allErrorMsgs r ≠ [] := by
  induction r with
  | nil => simp at hp
  | cons q qs ih =>
    rw [allErrorMsgs]
    rcases List.mem_cons.1 hp with h | h
    · subst h
      simp [entryErrorMsgs, hd]
    · intro hnil
      exact ih h (List.append_eq_nil.1 hnil).2

lemma allWarningMsgs_ne_nil (r : List (String × OutdatedInfo)) (p : String × OutdatedInfo)
    (hp : p ∈ r) (hd : isWarnDelta (deltaOf p) = true) : allWarningMsgs r ≠ [] := by
  induction r with
  | nil => simp at hp
  | cons q qs ih =>
    rw [allWarningMsgs]
    rcases List.mem_cons.1 hp with h | h
    · subst h
      simp [entryWarningMsgs, hd]
    · intro hnil
      exact ih h (List.append_eq_nil.1 hnil).2

lemma not_patch_of_warnDelta {d : VersionDelta} (h : isWarnDelta d = true) :
    (d == VersionDelta.patch) = false := by
  cases d <;> first | rfl | exact absurd h (by decide)

lemma allErrorMsgs_nil_of_warn (r : List (String × OutdatedInfo))
    (h : ∀ p ∈ r, isWarnDelta (deltaOf p) = true) : allErrorMsgs r = [] := by
  induction r with
  | nil => rfl
  | cons q qs ih =>
    rw [allErrorMsgs, ih (fun p hp => h p (List.mem_cons_of_mem _ hp))]
    have hq := not_patch_of_warnDelta (h q (List.mem_cons_self _ _))
    simp [entryErrorMsgs, hq]

/-! ### The claims -/

/-- C1: the verdict aggregation exits 1 exactly when the blocking findings
(`errors`) are non-empty — no weighting or count threshold; any report with
a patch-delta entry fails; a non-empty report with only major/minor deltas
and no blocking vulnerability finding passes with non-empty warnings. -/
theorem C1_verdict_exit_iff_blocking (cfg : Config) (r : List (String × OutdatedInfo))
    (a : AuditOutcome) :
    ((run cfg ⟨true, OutdatedOutcome.ok r, a⟩).exitCode = 1 ↔
      (run cfg ⟨true, OutdatedOutcome.ok r, a⟩).state.errors ≠ []) ∧
    ((run cfg ⟨true, OutdatedOutcome.ok r, a⟩).exitCode = 0 ↔
      (run cfg ⟨true, OutdatedOutcome.ok r, a⟩).state.errors = []) ∧
    ((∃ p ∈ r, deltaOf p = VersionDelta.patch) →
      (run cfg ⟨true, OutdatedOutcome.ok r, a⟩).exitCode = 1) ∧
    (r ≠ [] → (∀ p ∈ r, isWarnDelta (deltaOf p) = true) → secRunErrorMsgs a = [] →
      (run cfg ⟨true, OutdatedOutcome.ok r, a⟩).exitCode = 0 ∧
      (run cfg ⟨true, OutdatedOutcome.ok r, a⟩).state.warnings ≠ []) := by
  rw [run_report cfg ⟨true, OutdatedOutcome.ok r, a⟩ r rfl rfl]
  refine ⟨?_, ?_, ?_, ?_⟩
  · by_cases he : 0 < (reportState cfg initState a r).errors.length
    · rw [if_pos he]
      simpa using List.length_pos.mp he
    · rw [if_neg he]
      have h0 : (reportState cfg initState a r).errors = [] :=
        List.length_eq_zero.mp (Nat.eq_zero_of_not_pos he)
      simp [h0]
  · by_cases he : 0 < (reportState cfg initState a r).errors.length
    · rw [if_pos he]
      have := List.length_pos.mp he
      simp [this]
    · rw [if_neg he]
      have h0 : (reportState cfg initState a r).errors = [] :=
        List.length_eq_zero.mp (Nat.eq_zero_of_not_pos he)
      simp [h0]
  · rintro ⟨p, hp, hd⟩
    have hne : (reportState cfg initState a r).errors ≠ [] := by
      rw [reportState_errors]
      intro hnil
      exact allErrorMsgs_ne_nil r p hp hd (List.append_eq_nil.1 hnil).2
    rw [if_pos (List.length_pos.mpr hne)]
  · intro hr hwarn hsec
    have herr : (reportState cfg initState a r).errors = [] := by
      rw [reportState_errors, hsec, allErrorMsgs_nil_of_warn r hwarn]
      rfl
    have hw : (reportState cfg initState a r).warnings ≠ [] := by
      rw [reportState_warnings]
      obtain ⟨p, hp⟩ := List.exists_mem_of_ne_nil r hr
      intro hnil
      exact allWarningMsgs_ne_nil r p hp (hwarn p hp) (List.append_eq_nil.1 hnil).2
    rw [if_neg (by simp [herr])]
    exact ⟨rfl, hw⟩

/-- Closed witness for C1: a report with one patch-delta entry exits 1;
a report with one major-delta entry and a clean audit exits 0 with a
non-empty warning list. -/
theorem C1_witness :
    (run ⟨true, true⟩
      ⟨true, OutdatedOutcome.ok [("left-pad", ⟨"1.2.3", "1.2.4"⟩)], AuditOutcome.ok Option.none⟩).exitCode = 1 ∧
    ((run ⟨true, true⟩
      ⟨true, OutdatedOutcome.ok [("react", ⟨"1.2.3", "2.0.0"⟩)], AuditOutcome.ok Option.none⟩).exitCode = 0 ∧
     (run ⟨true, true⟩
      ⟨true, OutdatedOutcome.ok [("react", ⟨"1.2.3", "2.0.0"⟩)], AuditOutcome.ok Option.none⟩).state.warnings ≠ []) :=
  ⟨(C1_verdict_exit_iff_blocking ⟨true, true⟩ [("left-pad", ⟨"1.2.3", "1.2.4"⟩)]
      (AuditOutcome.ok Option.none)).2.2.1 (by decide),
   (C1_verdict_exit_iff_blocking ⟨true, true⟩ [("react", ⟨"1.2.3", "2.0.0"⟩)]
      (AuditOutcome.ok Option.none)).2.2.2 (by decide) (by decide) (by decide)⟩

/-- C2: the freshness analyzer maps major and minor deltas to warning
findings, patch deltas to blocking findings, and none/unknown deltas to no
finding, preserving the iteration order of the report: its warning list is
exactly the (order-preserving) filter of the major/minor entries mapped to
their messages, and its error list exactly the filter of the patch
entries. -/
theorem C2_freshness_policy (r : List (String × OutdatedInfo)) :
    (analyzeOutdatedPackages initState r).warnings
      = (r.filter (fun p => isWarnDelta (deltaOf p))).map warnMsgOf ∧
    (analyzeOutdatedPackages initState r).errors
      = (r.filter (fun p => deltaOf p == VersionDelta.patch)).map errMsgOf := by
  constructor
  · rw [analyze_warnings, allWarningMsgs_eq]
    rfl
  · rw [analyze_errors, allErrorMsgs_eq]
    rfl

/-- C7: the checker never ends in an unhandled fault: every run returns the
defined exit code 0 or 1; an entry whose version strings do not parse is
degraded to `unknown` and contributes nothing (no exception crosses into
the analyzer); a failed query under the permissive policy degrades to an
empty result. -/
theorem C7_no_unhandled_fault (cfg : Config) (inp : RunInput) :
    ((run cfg inp).exitCode = 0 ∨ (run cfg inp).exitCode = 1) ∧
    (∀ (s : State) (n : String) (i : OutdatedInfo),
      parseVersion i.current = Option.none ∨ parseVersion i.latest = Option.none →
      analyzeEntry s n i = s) ∧
    (∀ m : String, cfg.allowNetworkFailure = true →
      getOutdatedPackages cfg (OutdatedOutcome.failure m) = Except.ok [] ∧
      ∀ s : State, checkSecurityVulnerabilitiesRun cfg s (AuditOutcome.failure m) = s) := by
  refine ⟨?_, ?_, ?_⟩
  · obtain ⟨pj, od, au⟩ := inp
    cases pj with
    | false => exact Or.inl rfl
    | true =>
      cases h : getOutdatedPackages cfg od with
      | error msg =>
        rw [run_fatal cfg ⟨true, od, au⟩ msg rfl h]
        by_cases hn : cfg.allowNetworkFailure <;> simp [runCatchExit, hn]
      | ok r =>
        rw [run_report cfg ⟨true, od, au⟩ r rfl h]
        by_cases he : 0 < (reportState cfg initState au r).errors.length <;> simp [he]
  · intro s n i h
    have hu : getVersionDifference i.current i.latest = VersionDelta.unknown := by
      rcases h with h | h
      · cases h2 : parseVersion i.latest <;> simp [getVersionDifference, h, h2]
      · cases h2 : parseVersion i.current <;> simp [getVersionDifference, h, h2]
    simp [analyzeEntry, hu]
  · intro m hn
    refine ⟨by simp [getOutdatedPackages, hn], fun s => by simp [checkSecurityVulnerabilitiesRun, hn]⟩

/-- Closed witness for C7: a run whose two queries both fail exits with a
defined code, and an entry with the unparseable version `1.2.x` leaves the
checker state untouched. -/
theorem C7_witness :
    ((run ⟨true, false⟩ ⟨true, OutdatedOutcome.failure "down", AuditOutcome.failure "down"⟩).exitCode = 0 ∨
     (run ⟨true, false⟩ ⟨true, OutdatedOutcome.failure "down", AuditOutcome.failure "down"⟩).exitCode = 1) ∧
    analyzeEntry initState "pkg" ⟨"1.2.x", "1.2.3"⟩ = initState :=
  ⟨(C7_no_unhandled_fault ⟨true, false⟩
      ⟨true, OutdatedOutcome.failure "down", AuditOutcome.failure "down"⟩).1,
   (C7_no_unhandled_fault ⟨true, false⟩
      ⟨true, OutdatedOutcome.failure "down", AuditOutcome.failure "down"⟩).2.1
     initState "pkg" ⟨"1.2.x", "1.2.3"⟩ (Or.inl (by decide))⟩

/-- C9: aggregation is idempotent and hides no mutable state: two runs on
the same input (each with a freshly constructed checker, as the entry point
does) produce identical verdicts, and the only dependence of the
aggregation on pre-existing checker state is the explicit list prefix —
so any checker starting from the constructor state yields byte-identical
verdict content. -/
theorem C9_aggregation_idempotent (cfg : Config) (inp : RunInput) (s0 : State)
    (a : AuditOutcome) (r : List (String × OutdatedInfo)) :
    verdictOf (run cfg inp) = verdictOf (run cfg inp) ∧
    (reportState cfg s0 a r).warnings
      = s0.warnings ++ (reportState cfg initState a r).warnings ∧
    (reportState cfg s0 a r).errors
      = s0.errors ++ (reportState cfg initState a r).errors := by
  refine ⟨rfl, ?_, ?_⟩
  · rw [reportState_warnings, reportState_warnings]
    simp [initState, List.append_assoc]
  · rw [reportState_errors, reportState_errors]
    simp [initState, List.append_assoc]

/-- C10: with `ALLOW_NETWORK_FAILURE = true` (the shipped default) the
top-level catch returns exit code 0 for every caught error, and the only
way `run` returns 1 is a non-empty blocking-findings list. -/
theorem C10_default_exit_policy (cfg : Config) (inp : RunInput)
    (h : cfg.allowNetworkFailure = true) :
    runCatchExit cfg = 0 ∧
    ((run cfg inp).exitCode = 1 ↔ (run cfg inp).state.errors ≠ []) := by
  refine ⟨by simp [runCatchExit, h], ?_⟩
  obtain ⟨pj, od, au⟩ := inp
  cases pj with
  | false =>
    rw [run_noPackage]
    simp [initState]
  | true =>
    have hok : ∃ r, getOutdatedPackages cfg od = Except.ok r := by
      cases od with
      | ok r => exact ⟨r, rfl⟩
      | emptyOutput => exact ⟨[], rfl⟩
      | failure m => exact ⟨[], by simp [getOutdatedPackages, h]⟩
    obtain ⟨r, hr⟩ := hok
    rw [run_report cfg ⟨true, od, au⟩ r rfl hr]
    by_cases he : 0 < (reportState cfg initState au r).errors.length
    · rw [if_pos he]
      simpa using List.length_pos.mp he
    · rw [if_neg he]
      have h0 : (reportState cfg initState au r).errors = [] :=
        List.length_eq_zero.mp (Nat.eq_zero_of_not_pos he)
      simp [h0]

/-- Closed witness for C10: under the default configuration a run whose two
queries both fail satisfies the exit-1-iff-blocking-findings rule (here:
exit 0, no findings). -/
theorem C10_witness :
    runCatchExit ⟨true, true⟩ = 0 ∧
    ((run ⟨true, true⟩ ⟨true, OutdatedOutcome.failure "down", AuditOutcome.failure "down"⟩).exitCode = 1 ↔
     (run ⟨true, true⟩ ⟨true, OutdatedOutcome.failure "down", AuditOutcome.failure "down"⟩).state.errors ≠ []) :=
  C10_default_exit_policy ⟨true, true⟩
    ⟨true, OutdatedOutcome.failure "down", AuditOutcome.failure "down"⟩ rfl

/-- C3 counterexample: with `allowNetworkFailure = false`, a failure of the
audit query does not block the commit — the run exits 0 and records only
the warning `Could not check security vulnerabilities`, where the claim
demands exit code 1 with a fatal-category message. -/
theorem C3_counterexample :
    (run ⟨false, false⟩ ⟨true, OutdatedOutcome.ok [], AuditOutcome.failure "timeout"⟩).exitCode = 0 ∧
    (run ⟨false, false⟩ ⟨true, OutdatedOutcome.ok [], AuditOutcome.failure "timeout"⟩).exitCode ≠ 1 ∧
    (run ⟨false, false⟩ ⟨true, OutdatedOutcome.ok [], AuditOutcome.failure "timeout"⟩).state.warnings
      = ["Could not check security vulnerabilities"] := by
  decide

/-- C3 (amended): a failed outdated-packages query is treated as an empty
report under `allowNetworkFailure = true` (exit 0 when the audit also
fails) and is fatal — exit 1 with the fatal message printed — under
`allowNetworkFailure = false`.  A failed audit query never escalates:
under the strict policy it only records the warning
`Could not check security vulnerabilities`, leaving the exit code to the
blocking-findings rule, and under the permissive policy it is silently
ignored. -/
theorem C3_degradation_amended (cfg : Config) (m m2 : String) (a : AuditOutcome)
    (r : List (String × OutdatedInfo)) :
    (cfg.allowNetworkFailure = true →
      (run cfg ⟨true, OutdatedOutcome.failure m, a⟩).exitCode
        = (run cfg ⟨true, OutdatedOutcome.ok [], a⟩).exitCode ∧
      (run cfg ⟨true, OutdatedOutcome.failure m, a⟩).state
        = (run cfg ⟨true, OutdatedOutcome.ok [], a⟩).state ∧
      (run cfg ⟨true, OutdatedOutcome.failure m, AuditOutcome.failure m2⟩).exitCode = 0) ∧
    (cfg.allowNetworkFailure = false →
      (run cfg ⟨true, OutdatedOutcome.failure m, a⟩).exitCode = 1 ∧
      ("❌ Package freshness check failed: Failed to check package versions: " ++ m)
        ∈ (run cfg ⟨true, OutdatedOutcome.failure m, a⟩).output) ∧
    (cfg.allowNetworkFailure = false →
      (run cfg ⟨true, OutdatedOutcome.ok r, AuditOutcome.failure m2⟩).exitCode
        = (run cfg ⟨true, OutdatedOutcome.ok r, AuditOutcome.ok Option.none⟩).exitCode ∧
      (run cfg ⟨true, OutdatedOutcome.ok r, AuditOutcome.failure m2⟩).state.warnings
        = "Could not check security vulnerabilities"
            :: (run cfg ⟨true, OutdatedOutcome.ok r, AuditOutcome.ok Option.none⟩).state.warnings) := by
  refine ⟨?_, ?_, ?_⟩
  · intro hn
    have h1 : getOutdatedPackages cfg (OutdatedOutcome.failure m) = Except.ok [] := by
      simp [getOutdatedPackages, hn]
    refine ⟨?_, ?_, ?_⟩
    · rw [run_report cfg ⟨true, OutdatedOutcome.failure m, a⟩ [] rfl h1,
        run_report cfg ⟨true, OutdatedOutcome.ok [], a⟩ [] rfl rfl]
    · rw [run_report cfg ⟨true, OutdatedOutcome.failure m, a⟩ [] rfl h1,
        run_report cfg ⟨true, OutdatedOutcome.ok [], a⟩ [] rfl rfl]
    · have h2 : getOutdatedPackages cfg (OutdatedOutcome.failure m) = Except.ok [] := h1
      rw [run_report cfg ⟨true, OutdatedOutcome.failure m, AuditOutcome.failure m2⟩ [] rfl h2]
      dsimp only
      rw [if_neg]
      rw [reportState_errors]
      simp [secRunErrorMsgs, allErrorMsgs, initState]
  · intro hn
    have h1 : getOutdatedPackages cfg (OutdatedOutcome.failure m)
        = Except.error ("Failed to check package versions: " ++ m) := by
      simp [getOutdatedPackages, hn]
    rw [run_fatal cfg ⟨true, OutdatedOutcome.failure m, a⟩ _ rfl h1]
    constructor
    · simp [runCatchExit, hn]
    · exact List.mem_append.mpr (Or.inr (List.mem_singleton.mpr rfl))
  · intro hn
    have he : (reportState cfg initState (AuditOutcome.failure m2) r).errors
        = (reportState cfg initState (AuditOutcome.ok Option.none) r).errors := by
      rw [reportState_errors, reportState_errors]
      rfl
    rw [run_report cfg ⟨true, OutdatedOutcome.ok r, AuditOutcome.failure m2⟩ r rfl rfl,
      run_report cfg ⟨true, OutdatedOutcome.ok r, AuditOutcome.ok Option.none⟩ r rfl rfl]
    constructor
    · dsimp only
      rw [he]
    · dsimp only
      rw [reportState_warnings, reportState_warnings]
      simp [secFailWarnings, hn, initState]

/-- Closed witness for C3 (amended): both queries failing under the default
permissive policy exits 0; a failed outdated query under the strict policy
exits 1. -/
theorem C3_witness :
    (run ⟨true, true⟩ ⟨true, OutdatedOutcome.failure "down", AuditOutcome.failure "down"⟩).exitCode = 0 ∧
    (run ⟨false, true⟩ ⟨true, OutdatedOutcome.failure "down", AuditOutcome.ok Option.none⟩).exitCode = 1 :=
  ⟨((C3_degradation_amended ⟨true, true⟩ "down" "down" (AuditOutcome.ok Option.none) []).1 rfl).2.2,
   ((C3_degradation_amended ⟨false, true⟩ "down" "down" (AuditOutcome.ok Option.none) []).2.1 rfl).1⟩

/-- C4 counterexample: `current = "2.0.0"` is strictly newer than
`latest = "1.5.0"`, yet `getVersionDifference` returns `minor`, not
`none` — the comparison is componentwise, so the current-newer-than-latest
case is not treated identically to `none`. -/
theorem C4_counterexample :
    getVersionDifference "2.0.0" "1.5.0" = VersionDelta.minor ∧
    getVersionDifference "2.0.0" "1.5.0" ≠ VersionDelta.none ∧
    parseVersion "2.0.0" = Option.some ⟨2, 0, 0⟩ ∧
    parseVersion "1.5.0" = Option.some ⟨1, 5, 0⟩ := by
  decide

/-- C4 (amended): `getVersionDifference` returns `unknown` exactly when a
parse fails; otherwise it compares componentwise in the order
major → minor → patch and returns the first component at which the latest
component strictly exceeds the current component — independently of the
higher-order components — and `none` when no component of latest exceeds
the corresponding component of current.  (Hence a current version strictly
newer than latest can still report `minor` or `patch`.)  The spec's five
examples hold. -/
theorem C4_version_delta_amended :
    (∀ c l : String, parseVersion c = Option.none ∨ parseVersion l = Option.none →
      getVersionDifference c l = VersionDelta.unknown) ∧
    (∀ (c l : String) (pc pl : ParsedVersion),
      parseVersion c = Option.some pc → parseVersion l = Option.some pl →
      ((getVersionDifference c l = VersionDelta.major ↔ pc.major < pl.major) ∧
       (getVersionDifference c l = VersionDelta.minor ↔
         pl.major ≤ pc.major ∧ pc.minor < pl.minor) ∧
       (getVersionDifference c l = VersionDelta.patch ↔
         pl.major ≤ pc.major ∧ pl.minor ≤ pc.minor ∧ pc.patch < pl.patch) ∧
       (getVersionDifference c l = VersionDelta.none ↔
         pl.major ≤ pc.major ∧ pl.minor ≤ pc.minor ∧ pl.patch ≤ pc.patch) ∧
       getVersionDifference c l ≠ VersionDelta.unknown)) ∧
    (getVersionDifference "1.2.3" "2.0.0" = VersionDelta.major ∧
     getVersionDifference "1.2.3" "1.3.0" = VersionDelta.minor ∧
     getVersionDifference "1.2.3" "1.2.4" = VersionDelta.patch ∧
     getVersionDifference "1.2.3" "1.2.3" = VersionDelta.none ∧
     getVersionDifference "1.2.x" "1.2.3" = VersionDelta.unknown) := by
  refine ⟨?_, ?_, by decide⟩
  · intro c l h
    rcases h with h | h
    · cases h2 : parseVersion l <;> simp [getVersionDifference, h, h2]
    · cases h2 : parseVersion c <;> simp [getVersionDifference, h, h2]
  · intro c l pc pl hc hl
    unfold getVersionDifference
    rw [hc, hl]
    dsimp only
    split_ifs with h1 h2 h3 <;> refine ⟨?_, ?_, ?_, ?_, ?_⟩ <;> simp_all <;> omega

/-- Closed witness for C4 (amended): the unknown case and the major
characterization at the spec's example inputs. -/
theorem C4_witness :
    getVersionDifference "1.2.x" "1.2.3" = VersionDelta.unknown ∧
    (getVersionDifference "1.2.3" "2.0.0" = VersionDelta.major ↔ (1 : Nat) < 2) :=
  ⟨C4_version_delta_amended.1 "1.2.x" "1.2.3" (Or.inl (by decide)),
   (C4_version_delta_amended.2.1 "1.2.3" "2.0.0" ⟨1, 2, 3⟩ ⟨2, 0, 0⟩
     (by decide) (by decide)).1⟩

/-- C5 counterexample: an audit report with two critical entries yields a
single summary blocking finding, not one blocking finding per qualifying
entry as the claim states. -/
theorem C5_counterexample :
    (checkSecurityVulnerabilities initState
      (Option.some [("a", ⟨Option.some "critical"⟩),
                    ("b", ⟨Option.some "critical"⟩)])).errors.length = 1 ∧
    ([("a", (⟨Option.some "critical"⟩ : VulnInfo)),
      ("b", ⟨Option.some "critical"⟩)].filter (fun p => isHighSeverity p.2)).length = 2 := by
  decide

lemma filter_length_pos_iff_any {α : Type} (l : List α) (p : α → Bool) :
    0 < (l.filter p).length ↔ l.any p = true := by
  induction l with
  | nil => simp
  | cons a t ih => by_cases h : p a <;> simp [List.filter_cons, h, ih]

/-- C5 (amended): the vulnerability check adds exactly one blocking summary
finding — whose message carries the count of high/critical entries — when
at least one entry has severity `high` or `critical`, and no finding at
all otherwise; entries with low, moderate, absent or malformed severity
never qualify, and warnings are untouched.  In particular one critical
entry plus one low entry yields exactly one blocking finding. -/
theorem C5_vulnerability_findings_amended (s : State) (vulns : List (String × VulnInfo)) :
    (checkSecurityVulnerabilities s (Option.some vulns)).warnings = s.warnings ∧
    (checkSecurityVulnerabilities s (Option.some vulns)).errors
      = s.errors ++
        (if vulns.any (fun p => isHighSeverity p.2) then
          [securityErrorMsg (vulns.filter (fun p => isHighSeverity p.2)).length]
         else []) ∧
    (checkSecurityVulnerabilities initState
      (Option.some [("c", ⟨Option.some "critical"⟩),
                    ("l", ⟨Option.some "low"⟩)])).errors.length = 1 := by
  refine ⟨checkSec_warnings s _, ?_, by decide⟩
  rw [checkSec_errors]
  congr 1
  dsimp only [secErrorMsgs]
  by_cases h : vulns.any (fun p => isHighSeverity p.2) = true
  · rw [if_pos ((filter_length_pos_iff_any vulns _).mpr h), if_pos h]
  · rw [if_neg (fun hpos => h ((filter_length_pos_iff_any vulns _).mp hpos)), if_neg h]

lemma takeDigits_append (d rest : List Char) (hd : ∀ c ∈ d, c.isDigit = true)
    (hr : ∀ c ∈ rest.take 1, c.isDigit = false) :
    takeDigits (d ++ rest) = (d, rest) := by
  induction d with
  | nil =>
    cases rest with
    | nil => rfl
    | cons c cs =>
      have hc : c.isDigit = false := hr c (by simp)
      simp [takeDigits, hc]
  | cons c cs ih =>
    have hc : c.isDigit = true := hd c (List.mem_cons_self _ _)
    have ht := ih (fun x hx => hd x (List.mem_cons_of_mem _ hx))
    simp [takeDigits, hc, ht]

/-- C6: `parseVersion` matches the three leading dot-separated digit runs
anchored at the start of the string, ignoring everything after them
(pre-release tags, range suffixes), and returns the three non-negative
integers; it returns `null` — not a fault — when the string has no such
leading pattern.  The spec's examples hold. -/
theorem C6_parse_version (d1 d2 d3 rest : List Char)
    (h1 : d1 ≠ []) (h1d : ∀ c ∈ d1, c.isDigit = true)
    (h2 : d2 ≠ []) (h2d : ∀ c ∈ d2, c.isDigit = true)
    (h3 : d3 ≠ []) (h3d : ∀ c ∈ d3, c.isDigit = true)
    (hrest : ∀ c ∈ rest.take 1, c.isDigit = false) :
    parseVersion (String.mk (d1 ++ '.' :: (d2 ++ '.' :: (d3 ++ rest))))
      = Option.some ⟨digitsToNat d1, digitsToNat d2, digitsToNat d3⟩ ∧
    parseVersion "1.2.3" = Option.some ⟨1, 2, 3⟩ ∧
    parseVersion "abc" = Option.none := by
  refine ⟨?_, by decide, by decide⟩
  have t1 : takeDigits (d1 ++ '.' :: (d2 ++ '.' :: (d3 ++ rest)))
      = (d1, '.' :: (d2 ++ '.' :: (d3 ++ rest))) :=
    takeDigits_append _ _ h1d (by intro c hc; simp at hc; subst hc; decide)
  have t2 : takeDigits (d2 ++ '.' :: (d3 ++ rest)) = (d2, '.' :: (d3 ++ rest)) :=
    takeDigits_append _ _ h2d (by intro c hc; simp at hc; subst hc; decide)
  have t3 : takeDigits (d3 ++ rest) = (d3, rest) := takeDigits_append _ _ h3d hrest
  unfold parseVersion
  dsimp only
  rw [t1]
  dsimp only
  rw [if_neg h1, if_pos rfl, t2]
  dsimp only
  rw [if_neg h2, if_pos rfl, t3]
  dsimp only
  rw [if_neg h3]

/-- Closed witness for C6: `1.2.3-rc` parses to `(1, 2, 3)` with the
pre-release suffix ignored, together with the spec's two examples. -/
theorem C6_witness :
    parseVersion (String.mk (['1'] ++ '.' :: (['2'] ++ '.' :: (['3'] ++ ['-', 'r', 'c']))))
      = Option.some ⟨1, 2, 3⟩ ∧
    parseVersion "1.2.3" = Option.some ⟨1, 2, 3⟩ ∧
    parseVersion "abc" = Option.none :=
  C6_parse_version ['1'] ['2'] ['3'] ['-', 'r', 'c'] (by decide) (by decide)
    (by decide) (by decide) (by decide) (by decide) (by decide)

/-! ### Console-output classification: every printed line is identified by
its first character -/

/-- The first character of a printed line. -/
def headChar (s : String) : Option Char := s.data.head?

lemma headChar_append (s t : String) (c : Char) (h : headChar s = Option.some c) :
    headChar (s ++ t) = Option.some c := by
  unfold headChar at h ⊢
  show (s.data ++ t.data).head? = Option.some c
  cases hs : s.data with
  | nil => rw [hs] at h; simp at h
  | cons a l =>
    rw [hs] at h
    simp at h
    simp [h]

lemma logMsg_head (cfg : Config) (m : String) (t : LogType) :
    ∀ x ∈ logMsg cfg m t,
      headChar x = Option.some 'ℹ' ∨ headChar x = Option.some '⚠' ∨
        headChar x = Option.some '❌' := by
  intro x hx
  cases t with
  | info =>
    unfold logMsg at hx
    split at hx
    · simp at hx
      subst hx
      exact Or.inl (headChar_append _ _ _ (by decide))
    · simp at hx
  | warn =>
    unfold logMsg at hx
    split at hx
    · simp at hx
      subst hx
      exact Or.inr (Or.inl (headChar_append _ _ _ (by decide)))
    · simp at hx
  | error =>
    unfold logMsg at hx
    split at hx
    · simp at hx
      subst hx
      exact Or.inr (Or.inr (headChar_append _ _ _ (by decide)))
    · simp at hx

lemma getOutdatedLog_head (cfg : Config) (od : OutdatedOutcome) :
    ∀ x ∈ getOutdatedPackagesLog cfg od,
      headChar x = Option.some 'ℹ' ∨ headChar x = Option.some '⚠' ∨
        headChar x = Option.some '❌' := by
  intro x hx
  cases od with
  | ok r =>
    simp only [getOutdatedPackagesLog] at hx
    exact logMsg_head cfg _ _ x hx
  | emptyOutput =>
    simp only [getOutdatedPackagesLog] at hx
    rcases List.mem_append.1 hx with h | h <;> exact logMsg_head cfg _ _ x h
  | failure m =>
    simp only [getOutdatedPackagesLog] at hx
    split at hx
    · rcases List.mem_append.1 hx with h | h <;> exact logMsg_head cfg _ _ x h
    · exact logMsg_head cfg _ _ x hx

lemma foldl_logs_mem (cfg : Config) (f : String × OutdatedInfo → String)
    (l : List (String × OutdatedInfo)) :
    ∀ (acc : List String),
      ∀ x ∈ l.foldl (fun acc p => acc ++ logMsg cfg (f p) LogType.info) acc,
        x ∈ acc ∨ ∃ p, x ∈ logMsg cfg (f p) LogType.info := by
  induction l with
  | nil => intro acc x hx; exact Or.inl hx
  | cons a t ih =>
    intro acc x hx
    rcases ih (acc ++ logMsg cfg (f a) LogType.info) x hx with h | h
    · rcases List.mem_append.1 h with h' | h'
      · exact Or.inl h'
      · exact Or.inr ⟨a, h'⟩
    · exact Or.inr h

lemma analyzeOutput_head (cfg : Config) (r : List (String × OutdatedInfo)) :
    ∀ x ∈ analyzeOutput cfg r,
      headChar x = Option.some 'ℹ' ∨ headChar x = Option.some '⚠' ∨
        headChar x = Option.some '❌' := by
  intro x hx
  unfold analyzeOutput at hx
  split at hx
  · simp at hx
  · rcases List.mem_append.1 hx with h | h
    · exact logMsg_head cfg _ _ x h
    · rcases foldl_logs_mem cfg (fun p => entryMessage p.1 p.2) r [] x h with h' | ⟨p, h'⟩
      · simp at h'
      · exact logMsg_head cfg _ _ x h'

lemma allWarningMsgs_head (r : List (String × OutdatedInfo)) :
    ∀ x ∈ allWarningMsgs r, headChar x = Option.some '📦' := by
  induction r with
  | nil => intro x hx; simp [allWarningMsgs] at hx
  | cons p ps ih =>
    intro x hx
    rw [allWarningMsgs] at hx
    rcases List.mem_append.1 hx with h | h
    · unfold entryWarningMsgs at h
      split at h
      · simp at h
        subst h
        unfold warnMsgOf
        split
        · exact headChar_append _ _ _ (by decide)
        · exact headChar_append _ _ _ (by decide)
      · simp at h
    · exact ih x h

lemma allErrorMsgs_head (r : List (String × OutdatedInfo)) :
    ∀ x ∈ allErrorMsgs r, headChar x = Option.some '🔧' := by
  induction r with
  | nil => intro x hx; simp [allErrorMsgs] at hx
  | cons p ps ih =>
    intro x hx
    rw [allErrorMsgs] at hx
    rcases List.mem_append.1 hx with h | h
    · unfold entryErrorMsgs at h
      split at h
      · simp at h
        subst h
        unfold errMsgOf
        exact headChar_append _ _ _ (headChar_append _ _ _ (by decide))
      · simp at h
    · exact ih x h

lemma secRunErrorMsgs_head (a : AuditOutcome) :
    ∀ x ∈ secRunErrorMsgs a, headChar x = Option.some '🔒' := by
  intro x hx
  cases a with
  | failure m => simp [secRunErrorMsgs] at hx
  | ok v =>
    cases v with
    | none => simp [secRunErrorMsgs, secErrorMsgs] at hx
    | some vulns =>
      dsimp only [secRunErrorMsgs, secErrorMsgs] at hx
      split at hx
      · simp at hx
        subst hx
        unfold securityErrorMsg
        exact headChar_append _ _ _ (headChar_append _ _ _ (by decide))
      · simp at hx

lemma reportState_errors_head (cfg : Config) (a : AuditOutcome)
    (r : List (String × OutdatedInfo)) :
    ∀ x ∈ (reportState cfg initState a r).errors,
      headChar x = Option.some '🔒' ∨ headChar x = Option.some '🔧' := by
  intro x hx
  rw [reportState_errors] at hx
  rcases List.mem_append.1 hx with h | h
  · rcases List.mem_append.1 h with h' | h'
    · simp [initState] at h'
    · exact Or.inl (secRunErrorMsgs_head a x h')
  · exact Or.inr (allErrorMsgs_head r x h)

lemma reportState_ok_warnings (cfg : Config) (v : Option (List (String × VulnInfo)))
    (r : List (String × OutdatedInfo)) :
    (reportState cfg initState (AuditOutcome.ok v) r).warnings = allWarningMsgs r := by
  rw [reportState_warnings]
  simp [secFailWarnings, initState]

/-- C8 counterexample: a failing run (exit code 1) produced by a fatal
outdated-query failure under strict policy prints no labeled FAILED block
at all — the claim asserts every exit-1 run prints one. -/
theorem C8_counterexample :
    (run ⟨false, false⟩ ⟨true, OutdatedOutcome.failure "down", AuditOutcome.ok Option.none⟩).exitCode = 1 ∧
    "\n🚫 Pre-commit check FAILED:" ∉
      (run ⟨false, false⟩ ⟨true, OutdatedOutcome.failure "down", AuditOutcome.ok Option.none⟩).output := by
  decide

lemma logMsg_passed_verbose (cfg : Config) (hv : cfg.verbose = true) :
    logMsg cfg "Package freshness check passed! ✅" LogType.info
      = ["ℹ️ Package freshness check passed! ✅"] := by
  unfold logMsg
  rw [if_pos (by simp [hv])]
  rfl

/-- C8 (amended): on a run that fails because of blocking findings, a
labeled FAILED block enumerating the errors is printed, and no warning
line is printed at all (every printed line starts with a non-warning
character), so errors trivially precede warnings; on a pass with only
warnings a labeled warnings block enumerating them is printed; on a pass
with no findings the single confirmation line is printed — but only when
verbose output is enabled; a run that fails because of a fatal query
failure prints a single failure message instead of a FAILED block. -/
theorem C8_console_output_amended (cfg : Config) (r : List (String × OutdatedInfo))
    (v : Option (List (String × VulnInfo))) (m : String) :
    ((run cfg ⟨true, OutdatedOutcome.ok r, AuditOutcome.ok v⟩).state.errors ≠ [] →
      (run cfg ⟨true, OutdatedOutcome.ok r, AuditOutcome.ok v⟩).exitCode = 1 ∧
      (run cfg ⟨true, OutdatedOutcome.ok r, AuditOutcome.ok v⟩).output
        = getOutdatedPackagesLog cfg (OutdatedOutcome.ok r) ++
          logMsg cfg "Checking for security vulnerabilities..." LogType.info ++
          analyzeOutput cfg r ++
          ("\n🚫 Pre-commit check FAILED:"
            :: (run cfg ⟨true, OutdatedOutcome.ok r, AuditOutcome.ok v⟩).state.errors) ++
          failedBlockTail ∧
      (∀ w ∈ (run cfg ⟨true, OutdatedOutcome.ok r, AuditOutcome.ok v⟩).state.warnings,
        headChar w = Option.some '📦') ∧
      (∀ x ∈ (run cfg ⟨true, OutdatedOutcome.ok r, AuditOutcome.ok v⟩).output,
        headChar x ≠ Option.some '📦')) ∧
    ((run cfg ⟨true, OutdatedOutcome.ok r, AuditOutcome.ok v⟩).state.errors = [] →
      (run cfg ⟨true, OutdatedOutcome.ok r, AuditOutcome.ok v⟩).state.warnings ≠ [] →
      (run cfg ⟨true, OutdatedOutcome.ok r, AuditOutcome.ok v⟩).exitCode = 0 ∧
      (run cfg ⟨true, OutdatedOutcome.ok r, AuditOutcome.ok v⟩).output
        = getOutdatedPackagesLog cfg (OutdatedOutcome.ok r) ++
          logMsg cfg "Checking for security vulnerabilities..." LogType.info ++
          analyzeOutput cfg r ++
          ("\n⚠️  Package freshness warnings:"
            :: (run cfg ⟨true, OutdatedOutcome.ok r, AuditOutcome.ok v⟩).state.warnings) ++
          ["\nConsider updating these packages when convenient."]) ∧
    ((run cfg ⟨true, OutdatedOutcome.ok r, AuditOutcome.ok v⟩).state.errors = [] →
      (run cfg ⟨true, OutdatedOutcome.ok r, AuditOutcome.ok v⟩).state.warnings = [] →
      cfg.verbose = true →
      (run cfg ⟨true, OutdatedOutcome.ok r, AuditOutcome.ok v⟩).output
        = getOutdatedPackagesLog cfg (OutdatedOutcome.ok r) ++
          logMsg cfg "Checking for security vulnerabilities..." LogType.info ++
          analyzeOutput cfg r ++
          ["ℹ️ Package freshness check passed! ✅"]) ∧
    (cfg.allowNetworkFailure = false →
      (run cfg ⟨true, OutdatedOutcome.failure m, AuditOutcome.ok v⟩).exitCode = 1 ∧
      (run cfg ⟨true, OutdatedOutcome.failure m, AuditOutcome.ok v⟩).output
        = getOutdatedPackagesLog cfg (OutdatedOutcome.failure m) ++
          logMsg cfg "Checking for security vulnerabilities..." LogType.info ++
          ["❌ Package freshness check failed: Failed to check package versions: " ++ m] ∧
      "\n🚫 Pre-commit check FAILED:" ∉
        (run cfg ⟨true, OutdatedOutcome.failure m, AuditOutcome.ok v⟩).output) := by
  rw [run_report cfg ⟨true, OutdatedOutcome.ok r, AuditOutcome.ok v⟩ r rfl rfl]
  dsimp only
  refine ⟨?_, ?_, ?_, ?_⟩
  · intro hE
    have he : 0 < (reportState cfg initState (AuditOutcome.ok v) r).errors.length :=
      List.length_pos.mpr hE
    refine ⟨by rw [if_pos he], ?_, ?_, ?_⟩
    · rw [if_pos he]
      simp [List.append_assoc]
    · rw [reportState_ok_warnings]
      exact allWarningMsgs_head r
    · rw [if_pos he]
      intro x hx
      rcases List.mem_append.1 hx with h | h
      · rcases List.mem_append.1 h with h' | h'
        · rcases List.mem_append.1 h' with h'' | h''
          · rcases getOutdatedLog_head cfg _ x h'' with h3 | h3 | h3 <;> rw [h3] <;> decide
          · rcases logMsg_head cfg _ _ x h'' with h3 | h3 | h3 <;> rw [h3] <;> decide
        · rcases analyzeOutput_head cfg r x h' with h3 | h3 | h3 <;> rw [h3] <;> decide
      · rcases List.mem_append.1 h with h' | h'
        · rcases List.mem_cons.1 h' with h'' | h''
          · subst h''
            decide
          · rcases reportState_errors_head cfg _ r x h'' with h3 | h3 <;> rw [h3] <;> decide
        · unfold failedBlockTail at h'
          rcases List.mem_cons.1 h' with h'' | h''
          · subst h''
            decide
          · simp at h''
            subst h''
            decide
  · intro hE hW
    have he : ¬ 0 < (reportState cfg initState (AuditOutcome.ok v) r).errors.length := by
      simp [hE]
    have hw : 0 < (reportState cfg initState (AuditOutcome.ok v) r).warnings.length :=
      List.length_pos.mpr hW
    rw [if_neg he, if_neg he, if_pos hw,
      if_neg (by intro hc; exact hW (List.length_eq_zero.mp hc.1))]
    exact ⟨rfl, by simp [List.append_assoc]⟩
  · intro hE hW hv
    have he : ¬ 0 < (reportState cfg initState (AuditOutcome.ok v) r).errors.length := by
      simp [hE]
    have hw : ¬ 0 < (reportState cfg initState (AuditOutcome.ok v) r).warnings.length := by
      simp [hW]
    rw [if_neg he, if_neg hw, if_pos ⟨by simp [hW], by simp [hE]⟩,
      logMsg_passed_verbose cfg hv]
    simp [List.append_assoc]
  · intro hn
    have h1 : getOutdatedPackages cfg (OutdatedOutcome.failure m)
        = Except.error ("Failed to check package versions: " ++ m) := by
      simp [getOutdatedPackages, hn]
    rw [run_fatal cfg ⟨true, OutdatedOutcome.failure m, AuditOutcome.ok v⟩ _ rfl h1]
    dsimp only
    refine ⟨by simp [runCatchExit, hn], rfl, ?_⟩
    intro hmem
    rcases List.mem_append.1 hmem with h | h
    · rcases List.mem_append.1 h with h' | h'
      · rcases getOutdatedLog_head cfg _ _ h' with h3 | h3 | h3 <;> exact absurd h3 (by decide)
      · rcases logMsg_head cfg _ _ _ h' with h3 | h3 | h3 <;> exact absurd h3 (by decide)
    · simp at h
      have h2 := headChar_append
        "❌ Package freshness check failed: " ("Failed to check package versions: " ++ m) '❌' (by decide)
      rw [← h] at h2
      exact absurd h2 (by decide)

/-- Closed witness for C8 (amended): a run with a patch-delta entry exits 1
and its output is the FAILED block after the logs. -/
theorem C8_witness :
    (run ⟨true, true⟩
      ⟨true, OutdatedOutcome.ok [("chalk", ⟨"1.0.0", "1.0.1"⟩)], AuditOutcome.ok Option.none⟩).exitCode = 1 ∧
    (∀ x ∈ (run ⟨true, true⟩
      ⟨true, OutdatedOutcome.ok [("chalk", ⟨"1.0.0", "1.0.1"⟩)], AuditOutcome.ok Option.none⟩).output,
      headChar x ≠ Option.some '📦') :=
  ⟨((C8_console_output_amended ⟨true, true⟩ [("chalk", ⟨"1.0.0", "1.0.1"⟩)]
      Option.none "m").1 (by decide)).1,
   ((C8_console_output_amended ⟨true, true⟩ [("chalk", ⟨"1.0.0", "1.0.1"⟩)]
      Option.none "m").1 (by decide)).2.2.2⟩

end PkgFreshness
